import Mathlib

/-!
Verification development for the nightly-dashboard renderer (render.py).

The script fetches pipelines, jobs and test reports from a GitLab-style
REST API, partitions jobs by status, builds a reversed time series of
per-pipeline test counts and failure percentages, collects skipped test
cases with deep-link URLs, and renders an HTML dashboard.

Shallow embedding conventions:
- HTTP responses are supplied by an oracle (`Api`): each endpoint maps to
  an already-received response carrying a status code and a parsed body.
- Python exceptions are modelled with `Except PyErr`; `requests`'
  `raise_for_status` raises exactly for status codes 400..599.
- Python `float` arithmetic is modelled with `ℚ`; the only values the
  claims evaluate are exactly representable, so no rounding divergence
  arises at those points.
- `random.choices` (the per-job team annotation) is modelled by an oracle
  from the iteration index to the joined team string.
- The sequence of HTTP requests issued is recorded as a list of
  `ApiCall`s so that abort-before-further-fetch properties are statable.
-/

namespace NightlyDashboard

/-- Fields of one entry of the pipelines-list JSON that render.py reads. -/
structure PipelineInfo where
  id : Int
  updated_at : String
  deriving Repr, DecidableEq

/-- Fields of one entry of the jobs-list JSON that render.py reads. -/
structure JobInfo where
  web_url : String
  status : String
  name : String
  stage : String
  deriving Repr, DecidableEq

/-- Fields of one test case of the test-report JSON that render.py reads. -/
structure TestCaseInfo where
  classname : String
  name : String
  status : String
  deriving Repr, DecidableEq

/-- Fields of one test suite of the test-report JSON that render.py reads. -/
structure TestSuiteInfo where
  name : String
  test_cases : List TestCaseInfo
  deriving Repr, DecidableEq

/-- Fields of the test-report JSON that render.py reads. -/
structure TestReport where
  total_count : Nat
  failed_count : Nat
  skipped_count : Nat
  test_suites : List TestSuiteInfo
  deriving Repr, DecidableEq

/-- The Job dataclass of render.py. -/
structure Job where
  job_run_url : String
  job_run_status : String
  job_name : String
  job_stage : String
  teams : String
  deriving Repr, DecidableEq

/-- The fixed team list (TEAMS constant of render.py). -/
def TEAMS : List String := ["ECDC", "SCIPP", "SWAT", "DST", "DONKI", "IDS"]

/-- An already-received HTTP response: status code plus parsed JSON body. -/
structure HttpResponse (α : Type) where
  status_code : Nat
  body : α
  deriving Repr, DecidableEq

/-- The Python exceptions the script can raise along the modelled path:
HTTPError from raise_for_status, IndexError from a bad list index, and
ValueError from datetime.fromisoformat. -/
inductive PyErr where
  | httpError (status : Nat)
  | indexError
  | valueError
  deriving Repr, DecidableEq

/-- One HTTP request issued by the script, identified by endpoint and
pipeline id; used to record the request trace. -/
inductive ApiCall where
  | pipelines
  | jobs (pipeline_id : Int)
  | testReport (pipeline_id : Int)
  deriving Repr, DecidableEq

/-- Response oracle: what the remote API answers to each request. -/
structure Api where
  pipelinesResp : HttpResponse (List PipelineInfo)
  jobsResp : Int → HttpResponse (List JobInfo)
  testReportResp : Int → HttpResponse TestReport

/-- Model of requests' Response.raise_for_status: raises HTTPError exactly
for client-error (4xx) and server-error (5xx) status codes. -/
def raise_for_status {α : Type} (r : HttpResponse α) : Except PyErr Unit :=
  if 400 ≤ r.status_code ∧ r.status_code < 600 then
    Except.error (PyErr.httpError r.status_code)
  else Except.ok ()

/-- get_pipelines of render.py, applied to the received response: check the
status, take pipelines[0] as the latest (IndexError when the list is
empty), and the ids of pipelines[:50]. -/
def get_pipelines_res (r : HttpResponse (List PipelineInfo)) :
    Except PyErr (PipelineInfo × List Int) :=
  match raise_for_status r with
  | Except.error e => Except.error e
  | Except.ok _ =>
    match r.body with
    | [] => Except.error PyErr.indexError
    | latest_pipeline :: _ =>
      Except.ok (latest_pipeline, (r.body.take 50).map (fun p => p.id))

/-- get_jobs of render.py, applied to the received response. -/
def get_jobs_res (r : HttpResponse (List JobInfo)) :
    Except PyErr (List JobInfo) :=
  match raise_for_status r with
  | Except.error e => Except.error e
  | Except.ok _ => Except.ok r.body

/-- get_test_report of render.py, applied to the received response. -/
def get_test_report_res (r : HttpResponse TestReport) :
    Except PyErr TestReport :=
  match raise_for_status r with
  | Except.error e => Except.error e
  | Except.ok _ => Except.ok r.body

/-- Construction of the Job dataclass instance from one jobs-list entry
(before any status blanking); temp_teams stands for the random team
annotation of that iteration. -/
def mkJob (temp_teams : String) (job : JobInfo) : Job :=
  { job_run_url := job.web_url
    job_run_status := job.status
    job_name := job.name
    job_stage := job.stage
    teams := temp_teams }

/-- The job partition loop of main: each (index, job) pair goes to the
success, failed or others bucket by exact status comparison, and the
others bucket gets job_run_status cleared to the empty string. The team
oracle teamsOf models the random.choices annotation per iteration. -/
def bucketJobs (teamsOf : Nat → String) :
    List (Nat × JobInfo) → List Job × List Job × List Job
  | [] => ([], [], [])
  | (i, job) :: rest =>
    let job_obj := mkJob (teamsOf i) job
    let (success, failed, others) := bucketJobs teamsOf rest
    if job.status = "success" then (job_obj :: success, failed, others)
    else if job.status = "failed" then (success, job_obj :: failed, others)
    else (success, failed, { job_obj with job_run_status := "" } :: others)

/-- The combined display list of main: success + failed + others, built
from the fetched job list enumerated in order. -/
def all_jobs_of (teamsOf : Nat → String) (jobs : List JobInfo) : List Job :=
  let (success, failed, others) := bucketJobs teamsOf jobs.enum
  success ++ failed ++ others

/-- One tuple of the run_chart list of main:
(pid, total_tests, failed_job_percentage, failed_tests, skipped_tests). -/
structure RunEntry where
  pid : Int
  total_tests : Nat
  failed_job_percentage : ℚ
  failed_tests : Nat
  skipped_tests : Nat
  deriving Repr, DecidableEq

/-- One iteration body of the history loop of main: the percentage is
failed/total*100 when total_tests is truthy (non-zero) and 0.0 otherwise,
so the division is guarded. -/
def run_chart_entry (pid : Int) (test_report : TestReport) : RunEntry :=
  { pid := pid
    total_tests := test_report.total_count
    failed_tests := test_report.failed_count
    skipped_tests := test_report.skipped_count
    failed_job_percentage :=
      if test_report.total_count ≠ 0 then
        (test_report.failed_count : ℚ) / (test_report.total_count : ℚ) * 100
      else 0 }

/-- The history loop of main: fetch each pid's test report in fetch order,
appending one tuple per pid; an HTTP error aborts the loop. The second
component records the test-report requests issued. -/
def run_chart_loop (api : Api) :
    List Int → Except PyErr (List RunEntry) × List ApiCall
  | [] => (Except.ok [], [])
  | pid :: rest =>
    match get_test_report_res (api.testReportResp pid) with
    | Except.error e => (Except.error e, [ApiCall.testReport pid])
    | Except.ok test_report =>
      match run_chart_loop api rest with
      | (Except.error e, calls) => (Except.error e, ApiCall.testReport pid :: calls)
      | (Except.ok entries, calls) =>
        (Except.ok (run_chart_entry pid test_report :: entries),
          ApiCall.testReport pid :: calls)

/-- UTF-8 encoding of one character, as the list of its byte values. -/
def utf8Bytes (c : Char) : List Nat :=
  let n := c.toNat
  if n < 128 then [n]
  else if n < 2048 then [192 + n / 64, 128 + n % 64]
  else if n < 65536 then [224 + n / 4096, 128 + (n / 64) % 64, 128 + n % 64]
  else [240 + n / 262144, 128 + (n / 4096) % 64, 128 + (n / 64) % 64, 128 + n % 64]

/-- Bytes urllib.parse.quote leaves unencoded with the default safe set:
ASCII letters, digits, the marks - . _ ~, and the safe character /. -/
def isSafeByte (b : Nat) : Bool :=
  (65 ≤ b && b ≤ 90) || (97 ≤ b && b ≤ 122) || (48 ≤ b && b ≤ 57) ||
    b == 45 || b == 46 || b == 95 || b == 126 || b == 47

/-- Uppercase hexadecimal digit for a value below 16. -/
def hexUpper (n : Nat) : Char :=
  if n < 10 then Char.ofNat (48 + n) else Char.ofNat (55 + n)

/-- Percent-encoding of a byte list: safe bytes pass through, every other
byte becomes a percent sign followed by two uppercase hex digits. -/
def quoteBytes : List Nat → List Char
  | [] => []
  | b :: rest =>
    (if isSafeByte b then [Char.ofNat b]
     else ['%', hexUpper (b / 16), hexUpper (b % 16)]) ++ quoteBytes rest

/-- Model of urllib.parse.quote with its default safe set: UTF-8 encode the
string, then percent-encode each byte outside the safe set. -/
def quote (s : String) : String :=
  String.mk (quoteBytes (s.data.flatMap utf8Bytes))

/-- The deep-link URL built per test suite in main: the fixed pipeline test
report link pattern with the quoted suite name as job_name query value. -/
def job_name_url (pipeline_id : Int) (job_name : String) : String :=
  "https://git.esss.dk/dmsc-nightly/dmsc-nightly/-/pipelines/" ++
    toString pipeline_id ++ "/test_report?job_name=" ++ quote job_name

/-- The inner loop of the skipped-test collection: the test cases of one
suite whose status is exactly "skipped", each paired with the suite URL. -/
def collect_skipped (url : String) :
    List TestCaseInfo → List (String × String × String)
  | [] => []
  | c :: rest =>
    if c.status = "skipped" then
      (c.classname, c.name, url) :: collect_skipped url rest
    else collect_skipped url rest

/-- The skipped-test collection of main: walk the test suites in order and
collect every skipped case with the deep-link URL of its suite. -/
def skipped_test_suites_of (pipeline_id : Int) :
    List TestSuiteInfo → List (String × String × String)
  | [] => []
  | test :: rest =>
    collect_skipped (job_name_url pipeline_id test.name) test.test_cases ++
      skipped_test_suites_of pipeline_id rest

/-- The datetime fields render.py's strftime format reads. -/
structure PyDatetime where
  year : Nat
  month : Nat
  day : Nat
  hour : Nat
  minute : Nat
  second : Nat
  deriving Repr, DecidableEq

/-- Digit value of the character at position i, when it is a digit. -/
def isoDigit (cs : List Char) (i : Nat) : Option Nat :=
  match cs.get? i with
  | some c => if c.isDigit then some (c.toNat - 48) else none
  | none => none

/-- Whether the character at position i is exactly c. -/
def isoSep (cs : List Char) (i : Nat) (c : Char) : Bool :=
  cs.get? i == some c

/-- Model of datetime.fromisoformat on strings shaped
YYYY-MM-DDTHH:MM:SS...: positional digit extraction with separator and
range validation; None models the ValueError on malformed input. The
trailing offset text is not read because the script's strftime format
uses no timezone field. -/
def fromisoformat (s : String) : Option PyDatetime :=
  let cs := s.data
  match isoDigit cs 0, isoDigit cs 1, isoDigit cs 2, isoDigit cs 3,
      isoDigit cs 5, isoDigit cs 6, isoDigit cs 8, isoDigit cs 9,
      isoDigit cs 11, isoDigit cs 12, isoDigit cs 14, isoDigit cs 15,
      isoDigit cs 17, isoDigit cs 18 with
  | some y1, some y2, some y3, some y4, some mo1, some mo2, some d1,
      some d2, some h1, some h2, some mi1, some mi2, some s1, some s2 =>
    if isoSep cs 4 '-' && isoSep cs 7 '-' &&
        (isoSep cs 10 'T' || isoSep cs 10 ' ') &&
        isoSep cs 13 ':' && isoSep cs 16 ':' then
      let month := 10 * mo1 + mo2
      let day := 10 * d1 + d2
      let hour := 10 * h1 + h2
      let minute := 10 * mi1 + mi2
      let second := 10 * s1 + s2
      if 1 ≤ month && month ≤ 12 && 1 ≤ day && day ≤ 31 &&
          hour ≤ 23 && minute ≤ 59 && second ≤ 59 then
        some { year := 1000 * y1 + 100 * y2 + 10 * y3 + y4
               month := month, day := day
               hour := hour, minute := minute, second := second }
      else none
    else none
  | _, _, _, _, _, _, _, _, _, _, _, _, _, _ => none

/-- Full month name, as strftime %B renders it. -/
def month_name : Nat → String
  | 1 => "January" | 2 => "February" | 3 => "March" | 4 => "April"
  | 5 => "May" | 6 => "June" | 7 => "July" | 8 => "August"
  | 9 => "September" | 10 => "October" | 11 => "November" | 12 => "December"
  | _ => ""

/-- Two-digit zero padding, as strftime %d, %I, %M render numbers. -/
def pad2 (n : Nat) : String :=
  if n < 10 then "0" ++ toString n else toString n

/-- Model of strftime with the script's fixed format
"%B %d, %Y %I:%M %p": full month name, zero-padded day, year, zero-padded
12-hour clock, minute, and AM/PM. -/
def strftime_dashboard (d : PyDatetime) : String :=
  let hour12 := if d.hour % 12 = 0 then 12 else d.hour % 12
  let ampm := if d.hour < 12 then "AM" else "PM"
  month_name d.month ++ " " ++ pad2 d.day ++ ", " ++ toString d.year ++
    " " ++ pad2 hour12 ++ ":" ++ pad2 d.minute ++ " " ++ ampm

/-- Nearest integer with ties to even, the rounding of Python's float
formatting, implemented on the numerator and denominator so that it
evaluates by kernel reduction: for x with fractional remainder r, round
down when r < 1/2, up when r > 1/2, and to the even neighbour at r = 1/2. -/
def round_half_even (x : ℚ) : Int :=
  let f := x.floor
  let rnum := x.num - f * (x.den : Int)
  if 2 * rnum < (x.den : Int) then f
  else if (x.den : Int) < 2 * rnum then f + 1
  else if f % 2 = 0 then f else f + 1

/-- Model of Python's two-decimal float format f"{x:.2f}" over the exact
rational value: sign, integer part, a dot, and two rounded decimals. -/
def format2f (x : ℚ) : String :=
  let sign := if x.num < 0 then "-" else ""
  let n := (round_half_even (mkRat (x.num.natAbs * 100) x.den)).toNat
  sign ++ toString (n / 100) ++ "." ++ pad2 (n % 100)

/-- Whether the first character list is an initial segment of the second. -/
def startsWithChars : List Char → List Char → Bool
  | [], _ => true
  | _ :: _, [] => false
  | p :: ps, c :: cs => p == c && startsWithChars ps cs

/-- Fuel-driven worker for pyReplace: left-to-right non-overlapping
replacement of the pattern; the fuel bounds the characters consumed and
makes the recursion structural, so it evaluates by kernel reduction. -/
def replaceFuel (pat rep : List Char) : Nat → List Char → List Char
  | 0, cs => cs
  | _ + 1, [] => []
  | fuel + 1, c :: cs =>
    if !pat.isEmpty && startsWithChars pat (c :: cs) then
      rep ++ replaceFuel pat rep fuel ((c :: cs).drop pat.length)
    else c :: replaceFuel pat rep fuel cs

/-- Model of Python str.replace for a non-empty pattern, as main calls it
with pattern "Z": replace every non-overlapping occurrence, left to
right. -/
def pyReplace (s pat rep : String) : String :=
  String.mk (replaceFuel pat.data rep.data s.data.length s.data)

/-- The template variables main passes to render (the renderer contract);
the file write persists exactly this rendered data. -/
structure RenderContext where
  gitlab_tests : List Job
  failed_tests : List Job
  failed_job_percentage : String
  pipeline_end_time : String
  teams : List String
  failing_test : List Nat
  pipeline_run_ids : List Int
  skipped_tests : List Nat
  number_of_tests : List Nat
  pipeline_id : Int
  skipped_test_suites : List (String × String × String)
  deriving Repr, DecidableEq

/-- The main function of render.py over the response oracle: fetch the
pipelines, take the latest, fetch its jobs, partition them, run the
history loop, reverse the run chart, fetch the latest test report, collect
skipped tests, format the date, extract the chart arrays and the last
percentage, and produce the render context. The second component is the
trace of HTTP requests issued; an error result means the run aborted
before writing any output file. -/
def run_main (teamsOf : Nat → String) (api : Api) :
    Except PyErr RenderContext × List ApiCall :=
  match get_pipelines_res api.pipelinesResp with
  | Except.error e => (Except.error e, [ApiCall.pipelines])
  | Except.ok (pipeline, last_50) =>
    let pipeline_id := pipeline.id
    match get_jobs_res (api.jobsResp pipeline_id) with
    | Except.error e =>
      (Except.error e, [ApiCall.pipelines, ApiCall.jobs pipeline_id])
    | Except.ok jobs =>
      let (success, failed, others) := bucketJobs teamsOf jobs.enum
      let all_jobs := success ++ failed ++ others
      match run_chart_loop api last_50 with
      | (Except.error e, loopCalls) =>
        (Except.error e,
          [ApiCall.pipelines, ApiCall.jobs pipeline_id] ++ loopCalls)
      | (Except.ok run_chart0, loopCalls) =>
        let run_chart := run_chart0.reverse
        let calls := [ApiCall.pipelines, ApiCall.jobs pipeline_id] ++
          loopCalls ++ [ApiCall.testReport pipeline_id]
        match get_test_report_res (api.testReportResp pipeline_id) with
        | Except.error e => (Except.error e, calls)
        | Except.ok last_run_test_report =>
          let skipped :=
            skipped_test_suites_of pipeline_id last_run_test_report.test_suites
          match fromisoformat (pyReplace pipeline.updated_at "Z" "+00:00") with
          | none => (Except.error PyErr.valueError, calls)
          | some date =>
            let formatted_date := strftime_dashboard date ++ " UTC"
            let percentage_data :=
              run_chart.map (fun i => i.failed_job_percentage)
            match percentage_data.getLast? with
            | none => (Except.error PyErr.indexError, calls)
            | some lastPct =>
              (Except.ok
                { gitlab_tests := all_jobs
                  failed_tests := failed
                  failed_job_percentage := format2f lastPct ++ "%"
                  pipeline_end_time := formatted_date
                  teams := TEAMS
                  failing_test := run_chart.map (fun i => i.failed_tests)
                  pipeline_run_ids := run_chart.map (fun i => i.pid)
                  skipped_tests := run_chart.map (fun i => i.skipped_tests)
                  number_of_tests := run_chart.map (fun i => i.total_tests)
                  pipeline_id := pipeline_id
                  skipped_test_suites := skipped }, calls)

/-- A fixed team oracle for concrete runs (the team annotation is
cosmetic and never correctness-bearing). -/
def teamsOf0 : Nat → String := fun _ => ""

/-- The pipeline of the spec's concrete scenario. -/
def pipelineW : PipelineInfo :=
  { id := 42, updated_at := "2024-01-02T03:04:05Z" }

/-- The test report of the spec's concrete scenario. -/
def reportW : TestReport :=
  { total_count := 10, failed_count := 2, skipped_count := 1, test_suites := [] }

/-- Response oracle for the spec's concrete scenario: one pipeline and the
fixed test report, all responses successful. -/
def apiScenario : Api :=
  { pipelinesResp := { status_code := 200, body := [pipelineW] }
    jobsResp := fun _ => { status_code := 200, body := [] }
    testReportResp := fun _ => { status_code := 200, body := reportW } }

/-- Response oracle whose every response carries HTTP status 304 (Not
Modified), a non-2xx status outside the 4xx/5xx range, with well-formed
bodies. -/
def api304 : Api :=
  { pipelinesResp := { status_code := 304, body := [pipelineW] }
    jobsResp := fun _ => { status_code := 304, body := [] }
    testReportResp := fun _ => { status_code := 304, body := reportW } }

/-- Two concrete pipelines for a two-entry history. -/
def pipelineA : PipelineInfo := { id := 1, updated_at := "2024-01-02T03:04:05Z" }

/-- Second pipeline of the two-entry history. -/
def pipelineB : PipelineInfo := { id := 2, updated_at := "2024-01-02T03:04:05Z" }

/-- Response oracle with two pipelines whose second (older) historical
test-report request answers with a 500 error while every other request
succeeds. -/
def api500 : Api :=
  { pipelinesResp := { status_code := 200, body := [pipelineA, pipelineB] }
    jobsResp := fun _ => { status_code := 200, body := [] }
    testReportResp := fun pid =>
      if pid = 2 then { status_code := 500, body := reportW }
      else { status_code := 200, body := reportW } }

/-- Response oracle whose pipelines-list response is a 404 error. -/
def api404 : Api :=
  { pipelinesResp := { status_code := 404, body := [] }
    jobsResp := fun _ => { status_code := 200, body := [] }
    testReportResp := fun _ => { status_code := 200, body := reportW } }

/-- Response oracle with a successful but empty pipelines list. -/
def apiEmpty : Api :=
  { pipelinesResp := { status_code := 200, body := [] }
    jobsResp := fun _ => { status_code := 200, body := [] }
    testReportResp := fun _ => { status_code := 200, body := reportW } }

/-- A concrete test suite with one skipped and one successful case. -/
def suiteW : TestSuiteInfo :=
  { name := "A B"
    test_cases :=
      [{ classname := "cls", name := "t1", status := "skipped" },
        { classname := "cls", name := "t2", status := "success" }] }

/-!
Theorems.
-/

theorem bucketJobs_eq (teamsOf : Nat → String) (l : List (Nat × JobInfo)) :
    bucketJobs teamsOf l =
      ((l.filter (fun p => p.2.status == "success")).map
          (fun p => mkJob (teamsOf p.1) p.2),
        (l.filter (fun p => p.2.status == "failed")).map
          (fun p => mkJob (teamsOf p.1) p.2),
        (l.filter (fun p => !(p.2.status == "success") &&
            !(p.2.status == "failed"))).map
          (fun p => { mkJob (teamsOf p.1) p.2 with job_run_status := "" })) := by
  induction l with
  | nil => rfl
  | cons hd tl ih =>
    obtain ⟨i, job⟩ := hd
    by_cases hs : job.status = "success"
    · simp [bucketJobs, ih, hs]
    · by_cases hf : job.status = "failed"
      · simp [bucketJobs, ih, hs, hf]
      · simp [bucketJobs, ih, hs, hf]

/-- C2: every fetched job with status exactly "success" lands in the
success bucket with its status preserved, every job with status exactly
"failed" lands in the failed bucket with its status preserved, and every
job with any other status lands in the other bucket with its run-status
field cleared to the empty string; each bucket is exactly the
corresponding status-filtered sublist of the fetched list. -/
theorem job_bucketing_by_status (teamsOf : Nat → String) (jobs : List JobInfo) :
    (bucketJobs teamsOf jobs.enum).1 =
      (jobs.enum.filter (fun p => p.2.status == "success")).map
        (fun p => mkJob (teamsOf p.1) p.2) ∧
    (bucketJobs teamsOf jobs.enum).2.1 =
      (jobs.enum.filter (fun p => p.2.status == "failed")).map
        (fun p => mkJob (teamsOf p.1) p.2) ∧
    (bucketJobs teamsOf jobs.enum).2.2 =
      (jobs.enum.filter (fun p => !(p.2.status == "success") &&
          !(p.2.status == "failed"))).map
        (fun p => { mkJob (teamsOf p.1) p.2 with job_run_status := "" }) := by
  rw [bucketJobs_eq]
  exact ⟨rfl, rfl, rfl⟩

/-- C3: the combined job list handed to the renderer is the success
bucket, then the failed bucket, then the other bucket, and each bucket
lists its jobs in the same relative order as the fetched job list (it is
the image of an order-preserving filter of that list). -/
theorem combined_job_list_order (teamsOf : Nat → String) (jobs : List JobInfo) :
    all_jobs_of teamsOf jobs =
      (jobs.enum.filter (fun p => p.2.status == "success")).map
        (fun p => mkJob (teamsOf p.1) p.2) ++
      (jobs.enum.filter (fun p => p.2.status == "failed")).map
        (fun p => mkJob (teamsOf p.1) p.2) ++
      (jobs.enum.filter (fun p => !(p.2.status == "success") &&
          !(p.2.status == "failed"))).map
        (fun p => { mkJob (teamsOf p.1) p.2 with job_run_status := "" }) := by
  unfold all_jobs_of
  rw [bucketJobs_eq]

theorem collect_skipped_mem (url : String) (tcs : List TestCaseInfo)
    (e : String × String × String) :
    e ∈ collect_skipped url tcs ↔
      ∃ c ∈ tcs, c.status = "skipped" ∧ e = (c.classname, c.name, url) := by
  induction tcs with
  | nil => simp [collect_skipped]
  | cons c rest ih =>
    by_cases h : c.status = "skipped" <;> simp [collect_skipped, h, ih]

/-- C5: the skipped-test table contains the entry
(class name, test name, suite deep-link URL) for exactly the test cases of
the walked test suites whose status is exactly "skipped". -/
theorem skipped_table_characterization (pipeline_id : Int)
    (suites : List TestSuiteInfo) (e : String × String × String) :
    e ∈ skipped_test_suites_of pipeline_id suites ↔
      ∃ suite ∈ suites, ∃ c ∈ suite.test_cases,
        c.status = "skipped" ∧
          e = (c.classname, c.name, job_name_url pipeline_id suite.name) := by
  induction suites with
  | nil => simp [skipped_test_suites_of]
  | cons s rest ih =>
    simp [skipped_test_suites_of, collect_skipped_mem, ih]

/-- C5 witness: a concrete skipped case appears in the table. -/
theorem skipped_table_characterization_witness :
    ("cls", "t1", job_name_url 5 "A B") ∈ skipped_test_suites_of 5 [suiteW] :=
  (skipped_table_characterization 5 [suiteW] _).mpr
    ⟨suiteW, by simp, { classname := "cls", name := "t1", status := "skipped" },
      by simp [suiteW], rfl, rfl⟩

theorem isSafeByte_lt (b : Nat) (h : isSafeByte b = true) : b < 128 := by
  simp [isSafeByte] at h
  omega

theorem safe_char_ne_space :
    ∀ b, b < 128 → isSafeByte b = true → Char.ofNat b ≠ ' ' := by decide

theorem hexUpper_ne_space : ∀ n, n < 16 → hexUpper n ≠ ' ' := by decide

theorem utf8Bytes_lt (c : Char) (b : Nat) (hb : b ∈ utf8Bytes c) : b < 256 := by
  have hval : c.toNat < 1114112 := by
    rcases c.valid with h | ⟨h1, h2⟩ <;> simp [Char.toNat] at * <;> omega
  simp only [utf8Bytes] at hb
  split at hb
  · simp at hb
    omega
  · split at hb
    · simp at hb
      have hd : c.toNat / 64 < 32 := Nat.div_lt_of_lt_mul (by omega)
      have hm : c.toNat % 64 < 64 := Nat.mod_lt _ (by omega)
      omega
    · split at hb
      · simp at hb
        have hd : c.toNat / 4096 < 16 := Nat.div_lt_of_lt_mul (by omega)
        have hm1 : c.toNat / 64 % 64 < 64 := Nat.mod_lt _ (by omega)
        have hm2 : c.toNat % 64 < 64 := Nat.mod_lt _ (by omega)
        omega
      · simp at hb
        have hd : c.toNat / 262144 < 5 := Nat.div_lt_of_lt_mul (by omega)
        have hm1 : c.toNat / 4096 % 64 < 64 := Nat.mod_lt _ (by omega)
        have hm2 : c.toNat / 64 % 64 < 64 := Nat.mod_lt _ (by omega)
        have hm3 : c.toNat % 64 < 64 := Nat.mod_lt _ (by omega)
        omega

theorem quoteBytes_ne_space (bs : List Nat) (hbs : ∀ b ∈ bs, b < 256) :
    ∀ ch ∈ quoteBytes bs, ch ≠ ' ' := by
  induction bs with
  | nil => simp [quoteBytes]
  | cons b rest ih =>
    intro ch hch
    have hb : b < 256 := hbs b (by simp)
    have hrest : ∀ x ∈ rest, x < 256 := fun x hx => hbs x (by simp [hx])
    rw [quoteBytes] at hch
    rcases List.mem_append.mp hch with h1 | h2
    · split at h1
      case isTrue hsafe =>
        simp at h1
        subst h1
        exact safe_char_ne_space b (isSafeByte_lt b hsafe) hsafe
      case isFalse hsafe =>
        simp at h1
        rcases h1 with rfl | rfl | rfl
        · decide
        · exact hexUpper_ne_space _ (Nat.div_lt_of_lt_mul (by omega))
        · exact hexUpper_ne_space _ (Nat.mod_lt _ (by omega))
    · exact ih hrest ch h2

theorem quote_no_space (s : String) : ∀ ch ∈ (quote s).data, ch ≠ ' ' := by
  intro ch hch
  refine quoteBytes_ne_space (s.data.flatMap utf8Bytes) ?_ ch hch
  intro b hb
  rcases List.mem_flatMap.mp hb with ⟨c, _, hbc⟩
  exact utf8Bytes_lt c b hbc

/-- C6: the deep-link URL percent-encodes the suite name in the job_name
query segment: the URL is the fixed link pattern with the quoted name
appended, a quoted name never contains a raw space, and the suite name
"A B" yields a URL ending in test_report?job_name=A%20B. -/
theorem skipped_url_encoding (pipeline_id : Int) :
    job_name_url pipeline_id "A B" =
      "https://git.esss.dk/dmsc-nightly/dmsc-nightly/-/pipelines/" ++
        toString pipeline_id ++ "/test_report?job_name=" ++ "A%20B" ∧
    quote "A B" = "A%20B" ∧
    (∀ name : String, ∀ ch ∈ (quote name).data, ch ≠ ' ') := by
  refine ⟨?_, by decide, fun name => quote_no_space name⟩
  unfold job_name_url
  rw [show quote "A B" = "A%20B" by decide]

/-- C6 witness: the concrete URL for pipeline 42 and suite "A B". -/
theorem skipped_url_encoding_witness :
    job_name_url 42 "A B" =
      "https://git.esss.dk/dmsc-nightly/dmsc-nightly/-/pipelines/" ++
        toString (42 : Int) ++ "/test_report?job_name=" ++ "A%20B" :=
  (skipped_url_encoding 42).1

theorem get_test_report_res_ok {r : HttpResponse TestReport} {t : TestReport}
    (h : get_test_report_res r = Except.ok t) : t = r.body := by
  unfold get_test_report_res at h
  cases hrs : raise_for_status r with
  | error e => rw [hrs] at h; cases h
  | ok u => rw [hrs] at h; injection h with h; exact h.symm

theorem run_chart_loop_ok (api : Api) (pids : List Int) :
    ∀ entries, (run_chart_loop api pids).1 = Except.ok entries →
      entries = pids.map
        (fun pid => run_chart_entry pid (api.testReportResp pid).body) := by
  induction pids with
  | nil =>
    intro entries h
    simp [run_chart_loop] at h
    simp [h.symm]
  | cons pid rest ih =>
    intro entries h
    rw [run_chart_loop] at h
    cases hrep : get_test_report_res (api.testReportResp pid) with
    | error e => rw [hrep] at h; cases h
    | ok tr =>
      rw [hrep] at h
      rcases hrec : run_chart_loop api rest with ⟨res, calls⟩
      rw [hrec] at h
      cases res with
      | error e => cases h
      | ok es =>
        injection h with h
        obtain rfl := get_test_report_res_ok hrep
        have hes := ih es (by rw [hrec])
        rw [← h, hes]
        rfl

theorem run_chart_entry_pct (pid : Int) (tr : TestReport) :
    ((run_chart_entry pid tr).total_tests ≠ 0 →
      (run_chart_entry pid tr).failed_job_percentage =
        ((run_chart_entry pid tr).failed_tests : ℚ) /
          ((run_chart_entry pid tr).total_tests : ℚ) * 100) ∧
    ((run_chart_entry pid tr).total_tests = 0 →
      (run_chart_entry pid tr).failed_job_percentage = 0) := by
  unfold run_chart_entry
  by_cases h : tr.total_count = 0 <;> simp [h]

/-- C1: for every tuple the historical loop produced, the recorded
failed-percentage equals failed_count / total_count * 100 when total_count
is non-zero and is exactly 0 when total_count is zero; the guard means the
division is never evaluated with a zero denominator. -/
theorem history_percentage_guarded (api : Api) (pids : List Int)
    (entries : List RunEntry)
    (hok : (run_chart_loop api pids).1 = Except.ok entries)
    (e : RunEntry) (he : e ∈ entries) :
    (e.total_tests ≠ 0 →
      e.failed_job_percentage =
        (e.failed_tests : ℚ) / (e.total_tests : ℚ) * 100) ∧
    (e.total_tests = 0 → e.failed_job_percentage = 0) := by
  obtain rfl := run_chart_loop_ok api pids entries hok
  rw [List.mem_map] at he
  obtain ⟨pid, _, rfl⟩ := he
  exact run_chart_entry_pct pid _

/-- C1 witness: the property at the scenario report (10 tests, 2 failed). -/
theorem history_percentage_guarded_witness :
    ((run_chart_entry 42 reportW).total_tests ≠ 0 →
      (run_chart_entry 42 reportW).failed_job_percentage =
        ((run_chart_entry 42 reportW).failed_tests : ℚ) /
          ((run_chart_entry 42 reportW).total_tests : ℚ) * 100) ∧
    ((run_chart_entry 42 reportW).total_tests = 0 →
      (run_chart_entry 42 reportW).failed_job_percentage = 0) :=
  history_percentage_guarded apiScenario [42] [run_chart_entry 42 reportW]
    rfl (run_chart_entry 42 reportW) (List.mem_singleton.mpr rfl)

/-- C4: the run-chart series after the reversal step is exactly the
reverse of the per-pipeline tuples built in fetch order; equivalently it
is the tuple series over the reversed pipeline-id list, so a
newest-to-oldest fetch order yields an oldest-to-newest series. -/
theorem run_chart_reversal (api : Api) (pids : List Int)
    (entries : List RunEntry)
    (hok : (run_chart_loop api pids).1 = Except.ok entries) :
    entries.reverse =
      (pids.map
        (fun pid => run_chart_entry pid (api.testReportResp pid).body)).reverse ∧
    entries.reverse =
      pids.reverse.map
        (fun pid => run_chart_entry pid (api.testReportResp pid).body) := by
  obtain rfl := run_chart_loop_ok api pids entries hok
  exact ⟨rfl, (List.map_reverse _ _).symm⟩

/-- C4 witness: the reversal property at the two-pipeline fetch [1, 2]. -/
theorem run_chart_reversal_witness :
    [run_chart_entry 1 reportW, run_chart_entry 2 reportW].reverse =
      ([1, 2].map (fun pid =>
        run_chart_entry pid (apiScenario.testReportResp pid).body)).reverse ∧
    [run_chart_entry 1 reportW, run_chart_entry 2 reportW].reverse =
      ([1, 2] : List Int).reverse.map (fun pid =>
        run_chart_entry pid (apiScenario.testReportResp pid).body) :=
  run_chart_reversal apiScenario [1, 2]
    [run_chart_entry 1 reportW, run_chart_entry 2 reportW] rfl

/-- C7: on the spec's concrete scenario (one pipeline with id 42 updated
at 2024-01-02T03:04:05Z, and a test report of 10 total, 2 failed,
1 skipped), the rendered failed-percentage string is "20.00%" and the
formatted date string is "January 02, 2024 03:04 AM UTC". -/
theorem scenario_percentage_and_date :
    (run_main teamsOf0 apiScenario).1.map
      (fun ctx => (ctx.failed_job_percentage, ctx.pipeline_end_time)) =
    Except.ok ("20.00%", "January 02, 2024 03:04 AM UTC") := by
  have hentry : run_chart_entry 42 reportW =
      { pid := 42, total_tests := 10, failed_job_percentage := 20,
        failed_tests := 2, skipped_tests := 1 } := by
    unfold run_chart_entry reportW
    norm_num
  have hpip : get_pipelines_res apiScenario.pipelinesResp =
      Except.ok (pipelineW, [42]) := rfl
  have hjobs : get_jobs_res (apiScenario.jobsResp 42) = Except.ok [] := rfl
  have hloop : run_chart_loop apiScenario [42] =
      (Except.ok [run_chart_entry 42 reportW], [ApiCall.testReport 42]) := rfl
  rw [hentry] at hloop
  have hrep : get_test_report_res (apiScenario.testReportResp 42) =
      Except.ok reportW := rfl
  have hdate : fromisoformat (pyReplace pipelineW.updated_at "Z" "+00:00") =
      some ⟨2024, 1, 2, 3, 4, 5⟩ := rfl
  simp only [run_main, hpip, hjobs, hloop, hrep, hdate]
  rfl

theorem raise_for_status_err {α : Type} (r : HttpResponse α)
    (h4 : 400 ≤ r.status_code) (h6 : r.status_code < 600) :
    raise_for_status r = Except.error (PyErr.httpError r.status_code) := by
  unfold raise_for_status
  rw [if_pos ⟨h4, h6⟩]

theorem get_pipelines_res_err (r : HttpResponse (List PipelineInfo))
    (h4 : 400 ≤ r.status_code) (h6 : r.status_code < 600) :
    get_pipelines_res r = Except.error (PyErr.httpError r.status_code) := by
  unfold get_pipelines_res
  rw [raise_for_status_err r h4 h6]

theorem get_jobs_res_err (r : HttpResponse (List JobInfo))
    (h4 : 400 ≤ r.status_code) (h6 : r.status_code < 600) :
    get_jobs_res r = Except.error (PyErr.httpError r.status_code) := by
  unfold get_jobs_res
  rw [raise_for_status_err r h4 h6]

theorem get_test_report_res_err (r : HttpResponse TestReport)
    (h4 : 400 ≤ r.status_code) (h6 : r.status_code < 600) :
    get_test_report_res r = Except.error (PyErr.httpError r.status_code) := by
  unfold get_test_report_res
  rw [raise_for_status_err r h4 h6]

/-- C8 counterexample: an HTTP 304 response is not 2xx, yet
raise_for_status only raises for 4xx/5xx, so the run completes without any
error being raised (and the output would be written). -/
theorem non2xx_response_can_complete :
    (api304.pipelinesResp.status_code < 200 ∨
      299 < api304.pipelinesResp.status_code) ∧
    (run_main teamsOf0 api304).1.toOption.isSome = true := by
  constructor
  · right
    decide
  · rfl

theorem get_test_report_res_ok_of (r : HttpResponse TestReport)
    (h : ¬(400 ≤ r.status_code ∧ r.status_code < 600)) :
    get_test_report_res r = Except.ok r.body := by
  unfold get_test_report_res raise_for_status
  rw [if_neg h]

theorem run_chart_loop_err_at (api : Api) (pre : List Int) (pid : Int)
    (suffix : List Int)
    (hpre : ∀ q ∈ pre, ¬(400 ≤ (api.testReportResp q).status_code ∧
      (api.testReportResp q).status_code < 600))
    (h4 : 400 ≤ (api.testReportResp pid).status_code)
    (h6 : (api.testReportResp pid).status_code < 600) :
    run_chart_loop api (pre ++ pid :: suffix) =
      (Except.error (PyErr.httpError (api.testReportResp pid).status_code),
        pre.map ApiCall.testReport ++ [ApiCall.testReport pid]) := by
  induction pre with
  | nil =>
    rw [List.nil_append, run_chart_loop,
      get_test_report_res_err (api.testReportResp pid) h4 h6]
    rfl
  | cons q rest ih =>
    have hq := hpre q (by simp)
    have hrest : ∀ x ∈ rest, ¬(400 ≤ (api.testReportResp x).status_code ∧
        (api.testReportResp x).status_code < 600) :=
      fun x hx => hpre x (by simp [hx])
    rw [List.cons_append, run_chart_loop,
      get_test_report_res_ok_of (api.testReportResp q) hq, ih hrest]
    rfl

/-- C8 amended: a 4xx or 5xx response to any request the run issues — the
pipelines list, the jobs list, or any of the historical test-report
fetches (a later history fetch being reached when all earlier ones
succeeded) — raises an HTTPError that propagates immediately: the run
aborts with that error, the failing request is the last one issued (no
retry, no further call), and no render context is produced, so no output
file is written. -/
theorem http_error_aborts (teamsOf : Nat → String) (api : Api) (s : Nat)
    (h4 : 400 ≤ s) (h6 : s < 600) :
    (api.pipelinesResp.status_code = s →
      run_main teamsOf api =
        (Except.error (PyErr.httpError s), [ApiCall.pipelines])) ∧
    (∀ pipeline last_50,
      get_pipelines_res api.pipelinesResp = Except.ok (pipeline, last_50) →
      (api.jobsResp pipeline.id).status_code = s →
      run_main teamsOf api =
        (Except.error (PyErr.httpError s),
          [ApiCall.pipelines, ApiCall.jobs pipeline.id])) ∧
    (∀ pipeline jobs pre pid suffix,
      get_pipelines_res api.pipelinesResp =
        Except.ok (pipeline, pre ++ pid :: suffix) →
      get_jobs_res (api.jobsResp pipeline.id) = Except.ok jobs →
      (∀ q ∈ pre, ¬(400 ≤ (api.testReportResp q).status_code ∧
        (api.testReportResp q).status_code < 600)) →
      (api.testReportResp pid).status_code = s →
      run_main teamsOf api =
        (Except.error (PyErr.httpError s),
          [ApiCall.pipelines, ApiCall.jobs pipeline.id] ++
            pre.map ApiCall.testReport ++ [ApiCall.testReport pid])) := by
  refine ⟨?_, ?_, ?_⟩
  · intro hs
    have h1 := get_pipelines_res_err api.pipelinesResp (hs ▸ h4) (hs ▸ h6)
    rw [hs] at h1
    simp only [run_main, h1]
  · intro pipeline last_50 hpip hjs
    have h1 := get_jobs_res_err (api.jobsResp pipeline.id) (hjs ▸ h4) (hjs ▸ h6)
    rw [hjs] at h1
    simp only [run_main, hpip, h1]
  · intro pipeline jobs pre pid suffix hpip hjobs hpre hrs
    have hloop := run_chart_loop_err_at api pre pid suffix hpre
      (hrs ▸ h4) (hrs ▸ h6)
    rw [hrs] at hloop
    simp only [run_main, hpip, hjobs, hloop]
    simp

/-- C8 witness: with two fetched pipelines, a 500 on the second (older)
historical test-report request — after the first succeeded — aborts the
run right there: the trace ends at that request and no later request is
issued. -/
theorem http_error_aborts_witness :
    run_main teamsOf0 api500 =
      (Except.error (PyErr.httpError 500),
        [ApiCall.pipelines, ApiCall.jobs 1] ++
          [(1 : Int)].map ApiCall.testReport ++ [ApiCall.testReport 2]) :=
  (http_error_aborts teamsOf0 api500 500 (by decide) (by decide)).2.2
    pipelineA [] [1] 2 [] rfl rfl (by decide) rfl

/-- C9: a successful response with an empty pipelines list makes the run
fail with the IndexError of the unguarded pipelines[0] access, after the
single pipelines request and before any further fetch or render step. -/
theorem empty_pipelines_index_error (teamsOf : Nat → String) (api : Api)
    (hempty : api.pipelinesResp.body = [])
    (hstatus : ¬(400 ≤ api.pipelinesResp.status_code ∧
      api.pipelinesResp.status_code < 600)) :
    run_main teamsOf api = (Except.error PyErr.indexError, [ApiCall.pipelines]) := by
  have h1 : get_pipelines_res api.pipelinesResp =
      Except.error PyErr.indexError := by
    unfold get_pipelines_res raise_for_status
    rw [if_neg hstatus, hempty]
  simp only [run_main, h1]

/-- C9 witness: the empty pipelines list oracle aborts with IndexError. -/
theorem empty_pipelines_index_error_witness :
    run_main teamsOf0 apiEmpty =
      (Except.error PyErr.indexError, [ApiCall.pipelines]) :=
  empty_pipelines_index_error teamsOf0 apiEmpty rfl (by decide)

theorem get_pipelines_res_ok_facts (r : HttpResponse (List PipelineInfo))
    (pipeline : PipelineInfo) (last_50 : List Int)
    (h : get_pipelines_res r = Except.ok (pipeline, last_50)) :
    last_50.head? = some pipeline.id ∧ last_50 ≠ [] ∧
      last_50.length = min 50 r.body.length := by
  unfold get_pipelines_res at h
  cases hrs : raise_for_status r with
  | error e => rw [hrs] at h; cases h
  | ok u =>
    rw [hrs] at h
    cases hb : r.body with
    | nil => rw [hb] at h; cases h
    | cons p rest =>
      rw [hb] at h
      injection h with h
      injection h with h1 h2
      subst h1
      subst h2
      refine ⟨by simp, by simp, ?_⟩
      simp [List.length_take]
      omega

theorem get_pipelines_res_error_shape (r : HttpResponse (List PipelineInfo))
    (e : PyErr) (h : get_pipelines_res r = Except.error e) :
    e = PyErr.httpError r.status_code ∨ (e = PyErr.indexError ∧ r.body = []) := by
  unfold get_pipelines_res raise_for_status at h
  by_cases hs : 400 ≤ r.status_code ∧ r.status_code < 600
  · rw [if_pos hs] at h
    injection h with h
    exact Or.inl h.symm
  · rw [if_neg hs] at h
    cases hb : r.body with
    | nil =>
      rw [hb] at h
      injection h with h
      exact Or.inr ⟨h.symm, rfl⟩
    | cons p rest => rw [hb] at h; cases h

theorem get_jobs_res_error_shape (r : HttpResponse (List JobInfo))
    (e : PyErr) (h : get_jobs_res r = Except.error e) :
    e = PyErr.httpError r.status_code := by
  unfold get_jobs_res raise_for_status at h
  by_cases hs : 400 ≤ r.status_code ∧ r.status_code < 600
  · rw [if_pos hs] at h
    injection h with h
    exact h.symm
  · rw [if_neg hs] at h
    cases h

theorem get_test_report_res_error_shape (r : HttpResponse TestReport)
    (e : PyErr) (h : get_test_report_res r = Except.error e) :
    e = PyErr.httpError r.status_code := by
  unfold get_test_report_res raise_for_status at h
  by_cases hs : 400 ≤ r.status_code ∧ r.status_code < 600
  · rw [if_pos hs] at h
    injection h with h
    exact h.symm
  · rw [if_neg hs] at h
    cases h

theorem run_chart_loop_error_shape (api : Api) (pids : List Int) :
    ∀ e, (run_chart_loop api pids).1 = Except.error e → ∃ s, e = PyErr.httpError s := by
  induction pids with
  | nil => intro e h; cases h
  | cons pid rest ih =>
    intro e h
    rw [run_chart_loop] at h
    cases hrep : get_test_report_res (api.testReportResp pid) with
    | error e2 =>
      rw [hrep] at h
      injection h with h
      exact ⟨_, h.symm.trans (get_test_report_res_error_shape _ _ hrep)⟩
    | ok tr =>
      rw [hrep] at h
      rcases hrec : run_chart_loop api rest with ⟨res, calls⟩
      rw [hrec] at h
      cases res with
      | error e2 =>
        injection h with h
        exact h ▸ ih e2 (by rw [hrec])
      | ok es => cases h

theorem run_main_ok_facts (teamsOf : Nat → String) (api : Api)
    (ctx : RenderContext) (calls : List ApiCall)
    (h : run_main teamsOf api = (Except.ok ctx, calls)) :
    ∃ pipeline last_50,
      get_pipelines_res api.pipelinesResp = Except.ok (pipeline, last_50) ∧
      ctx.pipeline_run_ids.length = last_50.length ∧
      ctx.number_of_tests.length = last_50.length ∧
      ctx.failing_test.length = last_50.length ∧
      ctx.skipped_tests.length = last_50.length := by
  simp only [run_main] at h
  cases hpip : get_pipelines_res api.pipelinesResp with
  | error e => simp [hpip] at h
  | ok pr =>
    obtain ⟨pipeline, last_50⟩ := pr
    simp only [hpip] at h
    cases hjobs : get_jobs_res (api.jobsResp pipeline.id) with
    | error e => simp [hjobs] at h
    | ok jobs =>
      simp only [hjobs] at h
      rcases hloop : run_chart_loop api last_50 with ⟨res, loopCalls⟩
      cases res with
      | error e => simp [hloop] at h
      | ok run_chart0 =>
        simp only [hloop] at h
        have hlen : run_chart0.length = last_50.length := by
          rw [run_chart_loop_ok api last_50 run_chart0 (by rw [hloop])]
          simp
        cases hrep : get_test_report_res (api.testReportResp pipeline.id) with
        | error e => simp [hrep] at h
        | ok tr =>
          simp only [hrep] at h
          cases hdate :
              fromisoformat (pyReplace pipeline.updated_at "Z" "+00:00") with
          | none => simp [hdate] at h
          | some d =>
            simp only [hdate] at h
            cases run_chart0 with
            | nil => simp at h
            | cons e0 rest0 =>
              simp at h
              obtain ⟨hctx, -⟩ := h
              subst hctx
              refine ⟨pipeline, last_50, rfl, ?_, ?_, ?_, ?_⟩ <;>
                simp [← hlen]

theorem run_main_no_index_error (teamsOf : Nat → String) (api : Api)
    (hne : api.pipelinesResp.body ≠ []) :
    (run_main teamsOf api).1 ≠ Except.error PyErr.indexError := by
  intro hidx
  simp only [run_main] at hidx
  cases hpip : get_pipelines_res api.pipelinesResp with
  | error e =>
    simp only [hpip] at hidx
    simp at hidx
    subst hidx
    rcases get_pipelines_res_error_shape _ _ hpip with h2 | ⟨-, h3⟩
    · exact PyErr.noConfusion h2
    · exact hne h3
  | ok pr =>
    obtain ⟨pipeline, last_50⟩ := pr
    simp only [hpip] at hidx
    cases hjobs : get_jobs_res (api.jobsResp pipeline.id) with
    | error e =>
      simp only [hjobs] at hidx
      simp at hidx
      subst hidx
      exact PyErr.noConfusion (get_jobs_res_error_shape _ _ hjobs)
    | ok jobs =>
      simp only [hjobs] at hidx
      rcases hloop : run_chart_loop api last_50 with ⟨res, loopCalls⟩
      cases res with
      | error e =>
        simp only [hloop] at hidx
        simp at hidx
        subst hidx
        obtain ⟨s, hs⟩ :=
          run_chart_loop_error_shape api last_50 _ (by rw [hloop])
        exact PyErr.noConfusion hs
      | ok run_chart0 =>
        simp only [hloop] at hidx
        have hlen : run_chart0.length = last_50.length := by
          rw [run_chart_loop_ok api last_50 run_chart0 (by rw [hloop])]
          simp
        have hne50 : last_50 ≠ [] :=
          (get_pipelines_res_ok_facts _ _ _ hpip).2.1
        have hchart : run_chart0 ≠ [] := by
          intro h0
          rw [h0] at hlen
          exact hne50 (List.length_eq_zero.mp hlen.symm)
        cases hrep : get_test_report_res (api.testReportResp pipeline.id) with
        | error e =>
          simp only [hrep] at hidx
          simp at hidx
          subst hidx
          exact PyErr.noConfusion (get_test_report_res_error_shape _ _ hrep)
        | ok tr =>
          simp only [hrep] at hidx
          cases hdate :
              fromisoformat (pyReplace pipeline.updated_at "Z" "+00:00") with
          | none => simp [hdate] at hidx
          | some d =>
            simp only [hdate] at hidx
            cases run_chart0 with
            | nil => exact hchart rfl
            | cons e0 rest0 => simp at hidx

/-- C10: with a non-empty pipelines response, the latest pipeline's id is
the head of the returned id list, which is non-empty with one id per
fetched pipeline (at most 50); on any completed run the four chart arrays
all have one element per returned id — the same non-zero length — so
taking the last element of the percentage series cannot fail, and indeed
the run never fails with an IndexError. -/
theorem nonempty_pipelines_chart_invariants (teamsOf : Nat → String)
    (api : Api) (hne : api.pipelinesResp.body ≠ []) :
    (∀ pipeline last_50,
      get_pipelines_res api.pipelinesResp = Except.ok (pipeline, last_50) →
      last_50.head? = some pipeline.id ∧ last_50 ≠ [] ∧
        last_50.length = min 50 api.pipelinesResp.body.length) ∧
    (∀ ctx calls, run_main teamsOf api = (Except.ok ctx, calls) →
      ∃ pipeline last_50,
        get_pipelines_res api.pipelinesResp = Except.ok (pipeline, last_50) ∧
        ctx.pipeline_run_ids.length = last_50.length ∧
        ctx.number_of_tests.length = last_50.length ∧
        ctx.failing_test.length = last_50.length ∧
        ctx.skipped_tests.length = last_50.length ∧
        ctx.pipeline_run_ids.length ≠ 0) ∧
    (run_main teamsOf api).1 ≠ Except.error PyErr.indexError := by
  refine ⟨fun pipeline last_50 h => get_pipelines_res_ok_facts _ _ _ h,
    ?_, run_main_no_index_error teamsOf api hne⟩
  intro ctx calls h
  obtain ⟨pipeline, last_50, hpip, h1, h2, h3, h4⟩ :=
    run_main_ok_facts teamsOf api ctx calls h
  obtain ⟨-, hne50, -⟩ := get_pipelines_res_ok_facts _ _ _ hpip
  refine ⟨pipeline, last_50, hpip, h1, h2, h3, h4, ?_⟩
  rw [h1]
  intro h0
  exact hne50 (List.length_eq_zero.mp h0)

/-- C10 witness: the invariants at the concrete scenario oracle. -/
theorem nonempty_pipelines_chart_invariants_witness :
    (run_main teamsOf0 apiScenario).1 ≠ Except.error PyErr.indexError :=
  (nonempty_pipelines_chart_invariants teamsOf0 apiScenario
    (by simp [apiScenario])).2.2

end NightlyDashboard
